import Mathlib

/-!
Shallow embedding of the Gmail tool-invocation broker of `src/lib/ai/tools/gmail.ts`
(repository goldk3y/mcpilot).

The embedded functions are translated directly from the TypeScript source:

* `executeGmailToolEnhanced` — the invocation executor with cache lookup,
  configuration/credential checks, retry loop with exponential backoff,
  per-attempt session open/close accounting and cache population;
* `executeGmailTool` — the legacy wrapper (`useCache = false`, `retries = 1`);
* `buildGmailQuery` — the natural-language-to-Gmail-query builder;
* `formatEmailResults` — the list-result normalizer.

External effects are modelled explicitly:

* the credential store lookup `getUserGmailToken(userId)` and the presence of
  process configuration (`SMITHERY_API_KEY`, `GOOGLE_CLIENT_ID`,
  `GOOGLE_CLIENT_SECRET`) are fields of an `Env` record supplied per call;
* the behaviour of the remote MCP server on the i-th attempt of a call is a
  function `Env.remote : Nat → AttemptOutcome`;
* the wall clock is a `now : Nat` parameter (milliseconds), read at call entry
  and used both for the TTL check and for the timestamp of a stored entry;
* session opens/closes, remote tool calls and backoff sleeps are recorded in a
  `Trace` value returned next to the result, so that resource and retry claims
  are statements about the trace.
-/

/-- One item of the `content` list of a remote MCP reply.  The source only
inspects `item.type` and, for text items, `item.text`; non-text items are
carried as opaque structured data rendered by `JSON.stringify`. -/
inductive ContentItem where
  | textItem (s : String)
  | otherItem (ty : String) (data : String)
deriving Repr, DecidableEq

/-- The `type` field of a content item (`"text"` for text items). -/
def ContentItem.itemType : ContentItem → String
  | .textItem _ => "text"
  | .otherItem ty _ => ty

/-- Escape a character for a JSON string literal. -/
def jsonEscapeChar (c : Char) : String :=
  if c = '"' then "\\\""
  else if c = '\\' then "\\\\"
  else if c = '\n' then "\\n"
  else String.singleton c

/-- Render a string as a JSON string literal. -/
def jsonEscape (s : String) : String :=
  "\"" ++ String.join (s.toList.map jsonEscapeChar) ++ "\""

/-- Serialization of one content item, modelling its `JSON.stringify`
rendering (whitespace-insensitive). -/
def stringifyItem : ContentItem → String
  | .textItem s =>
      "\x7b\"type\":\"text\",\"text\":" ++ jsonEscape s ++ "\x7d"
  | .otherItem ty data =>
      "\x7b\"type\":" ++ jsonEscape ty ++ ",\"data\":" ++ jsonEscape data ++ "\x7d"

/-- Serialization of a whole content list, modelling
`JSON.stringify(result.content, null, 2)` (whitespace-insensitive). -/
def stringifyContent (content : List ContentItem) : String :=
  "[" ++ String.intercalate "," (content.map stringifyItem) ++ "]"

/-- Text extraction from a successful reply, from the source:
`if (result.content && Array.isArray(result.content) && result.content[0]?.type
=== 'text') resultText = result.content[0].text; else resultText =
JSON.stringify(result.content, null, 2)`.  Note that only the FIRST item's
type is inspected. -/
def extractText (content : List ContentItem) : String :=
  match content with
  | .textItem s :: _ => s
  | _ => stringifyContent content

/-- One cache entry: `\x7b result, timestamp \x7d` as stored by
`searchCache.set(cacheKey, \x7b result: resultText, timestamp: Date.now() \x7d)`. -/
structure CacheEntry where
  result : String
  timestamp : Nat
deriving Repr, DecidableEq

/-- The in-memory `searchCache` `Map`, modelled as an association list in
insertion order (a JS `Map` iterates keys in insertion order, and `set` on an
existing key keeps its position). -/
abbrev SearchCache := List (String × CacheEntry)

/-- Constant `CACHE_TTL = 5 * 60 * 1000` (milliseconds). -/
def CACHE_TTL : Nat := 5 * 60 * 1000

/-- Model of `Map.get`: first (and, for caches built by `cacheSet`, only) entry with
the given key. -/
def cacheGet (cache : SearchCache) (k : String) : Option CacheEntry :=
  (cache.find? (fun p => p.1 == k)).map (·.2)

/-- Model of `Map.set`: replace the value in place when the key is present (keeping
its insertion-order position), otherwise append at the end. -/
def cacheSet (cache : SearchCache) (k : String) (v : CacheEntry) : SearchCache :=
  if cache.any (fun p => p.1 == k) then
    cache.map (fun p => if p.1 == k then (k, v) else p)
  else
    cache ++ [(k, v)]

/-- Eviction `if (searchCache.size > 100) searchCache.delete(oldestKey)`: drop the
oldest (first-inserted) entry when the size exceeds 100. -/
def evictIfOver (cache : SearchCache) : SearchCache :=
  if cache.length > 100 then cache.tail else cache

/-- Cache population on a successful cacheable call: `set` then evict. -/
def cacheStore (cache : SearchCache) (k : String) (v : CacheEntry) : SearchCache :=
  evictIfOver (cacheSet cache k v)

/-- The cache key: `` `$\x7buserId\x7d:$\x7btoolName\x7d:$\x7bJSON.stringify(args)\x7d` ``.
Arguments are modelled by their serialized JSON form, so `args` is a `String`. -/
def cacheKey (userId toolName args : String) : String :=
  userId ++ ":" ++ toolName ++ ":" ++ args

/-- The designated cacheable (read/search) tools:
`toolName === 'list_messages' || toolName === 'search_emails'`. -/
def isCacheableTool (toolName : String) : Bool :=
  toolName == "list_messages" || toolName == "search_emails"

/-- The cache-lookup step at the top of `executeGmailToolEnhanced`: a live
result when `useCache` is set, the tool is cacheable, an entry exists and
`Date.now() - cached.timestamp < CACHE_TTL`. -/
def cachedResult (useCache : Bool) (toolName args userId : String) (now : Nat)
    (cache : SearchCache) : Option String :=
  if useCache && isCacheableTool toolName then
    match cacheGet cache (cacheKey userId toolName args) with
    | some e => if now - e.timestamp < CACHE_TTL then some e.result else none
    | none => none
  else none

/-- Outcome of one attempt of the retry loop: the `connect` race fails, the
`callTool` race fails (remote error or timeout), or the call succeeds with a
content list. -/
inductive AttemptOutcome where
  | connectFail (msg : String)
  | callFail (msg : String)
  | success (content : List ContentItem)
deriving DecidableEq

/-- The error message of a failed attempt (`none` for a success). -/
def AttemptOutcome.errMsg : AttemptOutcome → Option String
  | .connectFail m => some m
  | .callFail m => some m
  | .success _ => none

/-- The per-call environment: process configuration presence, the credential
store's current value for the caller (`getUserGmailToken(userId)`), and the
remote server's behaviour on each attempt. -/
structure Env where
  configOk : Bool
  token : Option String
  remote : Nat → AttemptOutcome

/-- Observable resource/retry trace of one executor call. -/
structure Trace where
  /-- transport sessions opened (transport constructed and `connect` raced) -/
  opens : Nat
  /-- `client.close()` completions (success path, or the catch path) -/
  closes : Nat
  /-- remote `callTool` invocations (reached only when `connect` won its race) -/
  calls : Nat
  /-- backoff sleeps, in order, each `Math.pow(2, attempt) * 1000` ms -/
  sleeps : List Nat
deriving Repr, DecidableEq

/-- The empty trace (no session, no remote call, no sleep). -/
def Trace.none : Trace := ⟨0, 0, 0, []⟩

/-- Typed failures of the executor, from the three `throw` sites:
`'Gmail configuration missing'`, `'Gmail not connected. Please connect your
Gmail account first.'`, and the re-thrown `lastError` after exhaustion. -/
inductive ExecError where
  | configMissing
  | notConnected
  | remoteFailed (msg : String)
deriving Repr, DecidableEq

/-- The retry loop `for (attempt = 0; attempt <= retries; attempt++)` of
`executeGmailToolEnhanced`, started at attempt number `attempt` with
`remaining` further attempts allowed.  Every attempt opens a session and
closes it exactly once (on the success path after `callTool`, or in the
`catch` with close errors swallowed); a failed attempt records its error and,
when attempts remain, sleeps `Math.pow(2, attempt) * 1000` ms before
retrying; after exhaustion the last recorded error is thrown. -/
def attemptLoop (remote : Nat → AttemptOutcome) (attempt : Nat) :
    Nat → Except String (List ContentItem) × Trace
  | 0 =>
    match remote attempt with
    | .success content => (.ok content, ⟨1, 1, 1, []⟩)
    | .connectFail msg => (.error msg, ⟨1, 1, 0, []⟩)
    | .callFail msg => (.error msg, ⟨1, 1, 1, []⟩)
  | r + 1 =>
    match remote attempt with
    | .success content => (.ok content, ⟨1, 1, 1, []⟩)
    | .connectFail _ =>
        let d := 2 ^ attempt * 1000
        let rest := attemptLoop remote (attempt + 1) r
        (rest.1, ⟨1 + rest.2.opens, 1 + rest.2.closes,
          rest.2.calls, d :: rest.2.sleeps⟩)
    | .callFail _ =>
        let d := 2 ^ attempt * 1000
        let rest := attemptLoop remote (attempt + 1) r
        (rest.1, ⟨1 + rest.2.opens, 1 + rest.2.closes,
          1 + rest.2.calls, d :: rest.2.sleeps⟩)

/-- Model of `executeGmailToolEnhanced(toolName, args, userId, \x7b useCache, retries,
timeout \x7d)`, translated from the source.  Steps, in source order:

1. if `useCache` and the tool is cacheable, return a live cache entry
   immediately (no configuration check, no credential fetch, no session);
2. throw `'Gmail configuration missing'` when any of the three process
   configuration values is absent;
3. fetch the refresh token from the credential store for this call; throw
   the `'Gmail not connected'` error when absent;
4. run the retry loop; on success extract the text (first item if
   text-typed, else stringify the whole content) and, when cacheable and
   `useCache`, store it with the current timestamp and evict the oldest
   entry when over capacity; after exhaustion throw the last error.

Returns (result, final cache, trace). -/
def executeGmailToolEnhanced (toolName args userId : String)
    (useCache : Bool) (retries : Nat) (env : Env) (now : Nat)
    (cache : SearchCache) : Except ExecError String × SearchCache × Trace :=
  match cachedResult useCache toolName args userId now cache with
  | some r => (.ok r, cache, Trace.none)
  | none =>
    if env.configOk = false then
      (.error .configMissing, cache, Trace.none)
    else
      match env.token with
      | none => (.error .notConnected, cache, Trace.none)
      | some _ =>
        match attemptLoop env.remote 0 retries with
        | (.error msg, tr) => (.error (.remoteFailed msg), cache, tr)
        | (.ok content, tr) =>
          let resultText := extractText content
          let cache' :=
            if useCache && isCacheableTool toolName then
              cacheStore cache (cacheKey userId toolName args)
                ⟨resultText, now⟩
            else cache
          (.ok resultText, cache', tr)

/-- The legacy wrapper: `executeGmailTool(toolName, args, userId)` is
`executeGmailToolEnhanced(toolName, args, userId, \x7b useCache: false,
retries: 1 \x7d)`. -/
def executeGmailTool (toolName args userId : String) (env : Env) (now : Nat)
    (cache : SearchCache) : Except ExecError String × SearchCache × Trace :=
  executeGmailToolEnhanced toolName args userId false 1 env now cache

/-- The `execute` body of the exported `sendMessage` tool:
`executeGmailTool('send_message', args, userId)`. -/
def sendMessageExecute (args userId : String) (env : Env) (now : Nat)
    (cache : SearchCache) : Except ExecError String × SearchCache × Trace :=
  executeGmailTool "send_message" args userId env now cache

/-! Query builder (`buildGmailQuery`) -/

/-- The `dateRange` sub-object of the semantic search parameters.  The source
field `end` is renamed `endDate` (`end` is a Lean keyword). -/
structure DateRange where
  start : Option String := none
  endDate : Option String := none
deriving Repr, DecidableEq

/-- Parameters of `buildGmailQuery` (all optional, as in the source). -/
structure GmailQueryParams where
  naturalQuery : Option String := none
  dateRange : Option DateRange := none
  sender : Option String := none
  hasAttachment : Option Bool := none
  isUnread : Option Bool := none
deriving Repr, DecidableEq

/-- JS truthiness of an optional string field: present and non-empty
(`if (params.naturalQuery) ...`). -/
def optTruthy : Option String → Option String
  | some s => if s = "" then none else some s
  | none => none

/-- Model of `buildGmailQuery(params)`: push the present (truthy) fields in source
order — free text, `after:`, `before:`, `from:`, `has:attachment`,
`is:unread` — then `queryParts.join(' ')`. -/
def buildGmailQuery (p : GmailQueryParams) : String :=
  let parts : List String :=
    (match optTruthy p.naturalQuery with | some s => [s] | none => []) ++
    (match p.dateRange with
     | some dr =>
        (match optTruthy dr.start with
         | some s => ["after:" ++ s] | none => []) ++
        (match optTruthy dr.endDate with
         | some s => ["before:" ++ s] | none => [])
     | none => []) ++
    (match optTruthy p.sender with | some s => ["from:" ++ s] | none => []) ++
    (if p.hasAttachment = some true then ["has:attachment"] else []) ++
    (if p.isUnread = some true then ["is:unread"] else [])
  String.intercalate " " parts

/-! Response normalizer (`formatEmailResults`).

`formatEmailResults` starts from `JSON.parse(emailData)`.  `JSON.parse` is a
host primitive, so the parse outcome is passed in as an `Option Json` oracle
(`none` models a parse exception, which the source catches and answers with
the raw input).  Locale date formatting (`new Date(...).toLocaleDateString`)
is likewise host behaviour and is passed in as a total function
`fmtDate : String → String`.  A JS exception thrown while rendering the
non-empty list (e.g. a non-array `headers` field) is modelled by `Option`:
`none` propagates to the enclosing catch, which returns the raw input. -/

/-- A parsed JSON value. -/
inductive Json where
  | null
  | bool (b : Bool)
  | num (n : Int)
  | str (s : String)
  | arr (xs : List Json)
  | obj (fields : List (String × Json))
deriving Repr

mutual

/-- Structural (`===`-style, post-parse) equality of JSON values. -/
def Json.beq : Json → Json → Bool
  | .null, .null => true
  | .bool a, .bool b => a == b
  | .num a, .num b => a == b
  | .str a, .str b => a == b
  | .arr xs, .arr ys => Json.beqList xs ys
  | .obj xs, .obj ys => Json.beqObj xs ys
  | _, _ => false

/-- Elementwise equality of JSON arrays. -/
def Json.beqList : List Json → List Json → Bool
  | [], [] => true
  | x :: xs, y :: ys => Json.beq x y && Json.beqList xs ys
  | _, _ => false

/-- Elementwise equality of JSON object binding lists. -/
def Json.beqObj : List (String × Json) → List (String × Json) → Bool
  | [], [] => true
  | (k, v) :: xs, (l, w) :: ys => k == l && Json.beq v w && Json.beqObj xs ys
  | _, _ => false

end

instance : BEq Json := ⟨Json.beq⟩

/-- JS truthiness of a parsed value (`null`, `false`, `0` and `""` are
falsy). -/
def jsTruthy : Json → Bool
  | .null => false
  | .bool b => b
  | .num n => !(n == 0)
  | .str s => !(s == "")
  | _ => true

/-- Property access `value.name` on a parsed value: defined only on objects
(last binding wins, as after `JSON.parse`); on anything else the property is
absent (`undefined`). -/
def objField? (v : Json) (name : String) : Option Json :=
  match v with
  | .obj fields =>
      ((fields.filter (fun p => p.1 == name)).getLast?).map (·.2)
  | _ => none

mutual

/-- JS template-literal stringification of a parsed value. -/
def jsDisplay : Json → String
  | .null => "null"
  | .bool b => if b then "true" else "false"
  | .num n => toString n
  | .str s => s
  | .arr xs => String.intercalate "," (jsDisplayList xs)
  | .obj _ => "[object Object]"

/-- Stringification of the elements of a JSON array. -/
def jsDisplayList : List Json → List String
  | [] => []
  | x :: xs => jsDisplay x :: jsDisplayList xs

end

/-- Access path `email.payload?.headers?.find(...)`: an absent or `null`
`payload`/`headers` yields no headers; a `headers` that is neither absent,
`null` nor an array makes `.find` throw (`none`). -/
def headersJs (email : Json) : Option (List Json) :=
  match objField? email "payload" with
  | none | some .null => some []
  | some payload =>
    match objField? payload "headers" with
    | none | some .null => some []
    | some (.arr hs) => some hs
    | some _ => none

/-- Lookup `headers.find(h => h.name === name)?.value`. -/
def findHeaderValue (headers : List Json) (name : String) : Option Json :=
  match headers.find? (fun h => objField? h "name" == some (.str name)) with
  | some h => objField? h "value"
  | none => none

/-- Defaulting `...?.value || default`: the stringified header value when truthy, else
the default. -/
def headerDisplay (v : Option Json) (dflt : String) : String :=
  match v with
  | some val => if jsTruthy val then jsDisplay val else dflt
  | none => dflt

/-- The first match group of `from.match(/<([^>]+)>/)`: the earliest
non-empty `>`-free run enclosed in angle brackets. -/
def angleEmail? : List Char → Option String
  | [] => none
  | '<' :: rest =>
      let inner := rest.takeWhile (fun c => c ≠ '>')
      if inner.length > 0 && inner.length < rest.length then
        some (String.mk inner)
      else angleEmail? rest
  | _ :: rest => angleEmail? rest

/-- Replacement `from.replace(/<[^>]+>/, '')`: remove the first angle-bracketed run. -/
def removeAngle : List Char → List Char
  | [] => []
  | '<' :: rest =>
      let inner := rest.takeWhile (fun c => c ≠ '>')
      if inner.length > 0 && inner.length < rest.length then
        rest.drop (inner.length + 1)
      else '<' :: removeAngle rest
  | c :: rest => c :: removeAngle rest

/-- Check `email.labelIds?.includes('UNREAD')`: arrays use membership, strings use
substring containment, absent/`null` yields false, any other truthy value
has no `includes` and throws. -/
def unreadFlag (email : Json) : Option String :=
  match objField? email "labelIds" with
  | none | some .null => some ""
  | some (.arr xs) =>
      some (if xs.contains (Json.str "UNREAD") then "🔵 " else "")
  | some (.str s) =>
      some (if (s.splitOn "UNREAD").length > 1 then "🔵 " else "")
  | some _ => none

/-- Check `email.payload?.parts?.some(part => part.filename)`: absent or `null`
short-circuits to no flag; an array is scanned for a truthy `filename`; any
other `parts` value has no `.some` and throws. -/
def attachmentFlag (email : Json) : Option String :=
  match objField? email "payload" with
  | none | some .null => some ""
  | some payload =>
    match objField? payload "parts" with
    | none | some .null => some ""
    | some (.arr parts) =>
        some (if parts.any (fun part =>
            match objField? part "filename" with
            | some v => jsTruthy v
            | none => false) then "📎 " else "")
    | some _ => none

/-- Snippet `email.snippet || ''`, then truncation at 100 characters with `...` for
string snippets (non-string truthy snippets have no `.length` and are shown
whole). -/
def snippetText (email : Json) : String :=
  match objField? email "snippet" with
  | some (.str s) =>
      if s == "" then ""
      else if s.length > 100 then (s.take 100) ++ "..." else s
  | some v => if jsTruthy v then jsDisplay v else ""
  | none => ""

/-- The block rendered for one email by the `forEach` body (`none` models a
thrown exception, caught by the enclosing `try`). -/
def renderEmail (fmtDate : String → String) (index : Nat) (email : Json) :
    Option String := do
  let headers ← headersJs email
  let subject := headerDisplay (findHeaderValue headers "Subject") "No Subject"
  let fromVal := findHeaderValue headers "From"
  let fromStr ←
    match fromVal with
    | some v =>
        if jsTruthy v then
          match v with
          | .str s => some s
          | _ => none
        else some "Unknown Sender"
    | none => some "Unknown Sender"
  let date := headerDisplay (findHeaderValue headers "Date") "Unknown Date"
  let formattedDate := fmtDate date
  let senderEmail :=
    match angleEmail? fromStr.toList with
    | some inner => inner
    | none => fromStr
  let trimmed := (String.mk (removeAngle fromStr.toList)).trim
  let senderName := if trimmed == "" then senderEmail else trimmed
  let unread ← unreadFlag email
  let attach ← attachmentFlag email
  let snippet := snippetText email
  let idText :=
    match objField? email "id" with
    | some v => jsDisplay v
    | none => "undefined"
  let block :=
    toString (index + 1) ++ ". " ++ unread ++ attach ++ "**" ++ subject ++
      "**\n" ++
    "   📤 From: " ++ senderName ++ " (" ++ senderEmail ++ ")\n" ++
    "   📅 Date: " ++ formattedDate ++ "\n" ++
    (if snippet == "" then "" else "   💬 Preview: " ++ snippet ++ "\n") ++
    "   🔗 ID: " ++ idText ++ "\n\n"
  pure block

/-- The rendering of a non-empty message list: count header, one block per
email, closing tip. -/
def renderEmails (fmtDate : String → String) (emails : List Json) :
    Option String := do
  let blocks ← (emails.enum.mapM (fun p => renderEmail fmtDate p.1 p.2))
  let header := "📧 Found " ++ toString emails.length ++ " email" ++
    (if emails.length ≠ 1 then "s" else "") ++ ":\n\n"
  pure (header ++ String.join blocks ++
    "💡 **Tip**: Ask me to \"get the content of email ID [email-id]\" to read the full email.")

/-- Model of `formatEmailResults(emailData)`, translated from the source: parse;
return the input unchanged when parsing failed, when the parse is falsy, or
when its `messages` property is not an array; return the fixed no-results
sentence when the array is empty; otherwise render the enumerated list, any
rendering exception degrading to the raw input (outer `catch`). -/
def formatEmailResults (emailData : String) (parsed : Option Json)
    (fmtDate : String → String) : String :=
  match parsed with
  | none => emailData
  | some js =>
    if jsTruthy js = false then emailData
    else
      match objField? js "messages" with
      | some (.arr []) => "No emails found matching your search criteria."
      | some (.arr emails) =>
          match renderEmails fmtDate emails with
          | some out => out
          | none => emailData
      | _ => emailData

/-! Claim-side vocabulary -/

/-- The mutating (send/create) Gmail tools enumerated by the specification:
`send_message`, `create_draft`, `create_label`. -/
def isMutatingGmailTool (toolName : String) : Bool :=
  toolName == "send_message" || toolName == "create_draft" ||
    toolName == "create_label"

/-- Stated from the spec's words, for comparison with `extractText`: the
text payload of the first text-typed item of the content list (`none` when
no item is text-typed). -/
def firstTextItemPayload? (content : List ContentItem) : Option String :=
  match content.find? (fun c => c.itemType == "text") with
  | some (.textItem s) => some s
  | _ => none

/-- The canonical items (`messages`) array of a parsed list payload: present
exactly when the parse is truthy and its `messages` property is an array. -/
def messagesArray? (js : Json) : Option (List Json) :=
  if jsTruthy js = false then none
  else
    match objField? js "messages" with
    | some (.arr xs) => some xs
    | _ => none

/-- A remote whose first attempt times out after accepting the request and
whose second attempt succeeds (scenario of the duplicated-send analysis). -/
def retryOnceEnv : Env :=
  ⟨true, some "tok",
   fun i => if i == 0 then .callFail "Gmail tool send_message timed out after 45000ms"
            else .success [.textItem "Message sent"]⟩

/-! Helper lemmas -/

/-- Every attempt of the retry loop closes exactly the session it opened:
close count equals open count for the whole loop. -/
theorem attemptLoop_closes_eq_opens (remote : Nat → AttemptOutcome) :
    ∀ (r a : Nat),
      (attemptLoop remote a r).2.closes = (attemptLoop remote a r).2.opens := by
  intro r
  induction r with
  | zero => intro a; rcases h : remote a <;> simp [attemptLoop, h]
  | succ n ih => intro a; rcases h : remote a <;> simp [attemptLoop, h, ih]

/-- When every attempt up to the budget fails, the loop returns the last
error, performs `r + 1` attempts, and sleeps `2 ^ attempt * 1000` between
consecutive attempts. -/
theorem attemptLoop_allFail (remote : Nat → AttemptOutcome) (m : Nat → String) :
    ∀ (r a : Nat), (∀ i, i ≤ r → (remote (a + i)).errMsg = some (m (a + i))) →
      (attemptLoop remote a r).1 = .error (m (a + r)) ∧
      (attemptLoop remote a r).2.opens = r + 1 ∧
      (attemptLoop remote a r).2.sleeps
        = (List.range' a r).map (fun i => 2 ^ i * 1000) := by
  intro r
  induction r with
  | zero =>
      intro a h
      have h0 := h 0 (Nat.le_refl 0)
      rw [Nat.add_zero] at h0
      rcases hc : remote a with msg | msg | content <;> rw [hc] at h0 <;>
        simp [AttemptOutcome.errMsg] at h0 <;>
        simp [attemptLoop, hc, h0]
  | succ n ih =>
      intro a h
      have h0 := h 0 (Nat.zero_le _)
      rw [Nat.add_zero] at h0
      have hshift : ∀ i, i ≤ n → (remote (a + 1 + i)).errMsg = some (m (a + 1 + i)) := by
        intro i hi
        have := h (i + 1) (Nat.succ_le_succ hi)
        have harith : a + (i + 1) = a + 1 + i := by omega
        rwa [harith] at this
      have ihh := ih (a + 1) hshift
      have harith2 : a + 1 + n = a + (n + 1) := by omega
      rw [harith2] at ihh
      rcases hc : remote a with msg | msg | content <;> rw [hc] at h0 <;>
        simp [AttemptOutcome.errMsg] at h0
      · simp [attemptLoop, hc, ihh.1, ihh.2.1, ihh.2.2, List.range'_succ]
        omega
      · simp [attemptLoop, hc, ihh.1, ihh.2.1, ihh.2.2, List.range'_succ]
        omega

/-- When the first `k` attempts fail and attempt `k` (within the budget)
succeeds, the loop returns the reply's content after `k + 1` attempts with
`k` backoff sleeps. -/
theorem attemptLoop_success_at (remote : Nat → AttemptOutcome)
    (content : List ContentItem) :
    ∀ (k r a : Nat), k ≤ r →
      (∀ i, i < k → ((remote (a + i)).errMsg).isSome = true) →
      remote (a + k) = .success content →
      (attemptLoop remote a r).1 = .ok content ∧
      (attemptLoop remote a r).2.opens = k + 1 ∧
      (attemptLoop remote a r).2.sleeps
        = (List.range' a k).map (fun i => 2 ^ i * 1000) := by
  intro k
  induction k with
  | zero =>
      intro r a _ _ hs
      rw [Nat.add_zero] at hs
      cases r <;> simp [attemptLoop, hs]
  | succ n ih =>
      intro r a hkr hf hs
      obtain ⟨r', rfl⟩ : ∃ r', r = r' + 1 := ⟨r - 1, by omega⟩
      have h0 := hf 0 (Nat.succ_pos n)
      rw [Nat.add_zero] at h0
      have harith : a + (n + 1) = a + 1 + n := by omega
      rw [harith] at hs
      have ihh := ih r' (a + 1) (by omega)
        (fun i hi => by
          have := hf (i + 1) (Nat.succ_lt_succ hi)
          have harith2 : a + (i + 1) = a + 1 + i := by omega
          rwa [harith2] at this) hs
      rcases hc : remote a with msg | msg | c <;> rw [hc] at h0 <;>
        simp [AttemptOutcome.errMsg] at h0
      · simp [attemptLoop, hc, ihh.1, ihh.2.1, ihh.2.2, List.range'_succ]
        omega
      · simp [attemptLoop, hc, ihh.1, ihh.2.1, ihh.2.2, List.range'_succ]
        omega

/-- A key that is present keeps its (replaced) value findable after the
in-place update of `cacheSet`. -/
theorem find_map_replace (k : String) (v : CacheEntry) :
    ∀ (c : SearchCache), c.any (fun p => p.1 == k) = true →
      (c.map (fun p => if p.1 == k then (k, v) else p)).find?
        (fun p => p.1 == k) = some (k, v) := by
  intro c
  induction c with
  | nil => simp
  | cons p rest ih =>
      intro h
      by_cases hp : (p.1 == k) = true
      · simp [List.find?, hp]
      · rw [List.any_cons] at h
        rcases Bool.or_eq_true_iff.mp h with h1 | h2
        · exact absurd h1 hp
        · simp only [List.map_cons, List.find?]
          rw [if_neg hp]
          simp only [hp, Bool.false_eq_true, if_false]
          exact ih h2

/-- A fresh key appended at the tail is found when no earlier entry has it. -/
theorem find_append_single (k : String) (v : CacheEntry) :
    ∀ (c : SearchCache), c.any (fun p => p.1 == k) = false →
      (c ++ [(k, v)]).find? (fun p => p.1 == k) = some (k, v) := by
  intro c
  induction c with
  | nil => simp
  | cons p rest ih =>
      intro h
      rw [List.any_cons] at h
      have h1 : (p.1 == k) = false := by
        cases hpk : (p.1 == k) <;> simp [hpk] at h ⊢
      have h2 : rest.any (fun p => p.1 == k) = false := by
        cases hr : rest.any (fun p => p.1 == k) <;> simp [hr, h1] at h ⊢
      simp only [List.cons_append, List.find?, h1]
      exact ih h2

/-- Storing into a cache of at most 100 entries (the reachable sizes) makes
the stored entry retrievable: the FIFO eviction never removes the entry
just written. -/
theorem cacheGet_cacheStore (cache : SearchCache) (k : String) (v : CacheEntry)
    (hlen : cache.length ≤ 100) :
    cacheGet (cacheStore cache k v) k = some v := by
  unfold cacheStore cacheSet evictIfOver
  by_cases hmem : cache.any (fun p => p.1 == k) = true
  · rw [if_pos hmem]
    have hl : (cache.map (fun p => if p.1 == k then (k, v) else p)).length
        = cache.length := List.length_map _ _
    rw [if_neg (by omega)]
    unfold cacheGet
    rw [find_map_replace k v cache hmem]
    rfl
  · have hmem' : cache.any (fun p => p.1 == k) = false := by
      cases hm : cache.any (fun p => p.1 == k)
      · rfl
      · exact absurd hm hmem
    rw [if_neg hmem]
    have hl : (cache ++ [(k, v)]).length = cache.length + 1 := by simp
    by_cases hover : (cache ++ [(k, v)]).length > 100
    · rw [if_pos hover]
      cases cache with
      | nil => simp at hover
      | cons q rest =>
          have hrest : rest.any (fun p => p.1 == k) = false := by
            rw [List.any_cons] at hmem'
            cases hr : rest.any (fun p => p.1 == k)
            · rfl
            · rw [hr] at hmem'; simp at hmem'
          simp only [List.cons_append, List.tail_cons]
          unfold cacheGet
          rw [find_append_single k v rest hrest]
          rfl
    · rw [if_neg hover]
      unfold cacheGet
      rw [find_append_single k v cache hmem']
      rfl

/-- A non-cacheable tool never produces a cache hit. -/
theorem cachedResult_not_cacheable (useCache : Bool)
    (toolName args userId : String) (now : Nat) (cache : SearchCache)
    (h : isCacheableTool toolName = false) :
    cachedResult useCache toolName args userId now cache = none := by
  simp [cachedResult, h]

/-- The mutating tools of the module are not among the designated cacheable
tools. -/
theorem mutating_not_cacheable (toolName : String)
    (h : isMutatingGmailTool toolName = true) :
    isCacheableTool toolName = false := by
  simp only [isMutatingGmailTool, Bool.or_eq_true, beq_iff_eq] at h
  rcases h with (h | h) | h <;> subst h <;> rfl

/-- An executor call that misses the cache, with configuration present and no
stored credential, fails `notConnected` with no session, no remote call and
no sleep, leaving the cache unchanged. -/
theorem exec_notConnected (toolName args userId : String) (useCache : Bool)
    (retries : Nat) (env : Env) (now : Nat) (cache : SearchCache)
    (hmiss : cachedResult useCache toolName args userId now cache = none)
    (hcfg : env.configOk = true) (htok : env.token = none) :
    executeGmailToolEnhanced toolName args userId useCache retries env now cache
      = (.error .notConnected, cache, Trace.none) := by
  simp [executeGmailToolEnhanced, hmiss, hcfg, htok]

/-- A cacheable call (with `useCache`) that misses the cache and succeeds
stores its result text under its cache key with the call's timestamp. -/
theorem exec_stores (toolName args userId : String) (retries : Nat) (env : Env)
    (now : Nat) (cache : SearchCache) (r : String) (cache' : SearchCache)
    (tr : Trace)
    (hlen : cache.length ≤ 100)
    (hct : isCacheableTool toolName = true)
    (hmiss : cachedResult true toolName args userId now cache = none)
    (hexec : executeGmailToolEnhanced toolName args userId true retries env now
        cache = (.ok r, cache', tr)) :
    cacheGet cache' (cacheKey userId toolName args) = some ⟨r, now⟩ := by
  simp only [executeGmailToolEnhanced, hmiss] at hexec
  cases hcfg : env.configOk with
  | false => rw [hcfg] at hexec; simp at hexec
  | true =>
      rw [hcfg] at hexec
      simp only [Bool.true_eq_false, if_false] at hexec
      cases htok : env.token with
      | none => rw [htok] at hexec; simp at hexec
      | some tok =>
          rw [htok] at hexec
          rcases hloop : attemptLoop env.remote 0 retries with ⟨res, tr2⟩
          rw [hloop] at hexec
          cases res with
          | error msg => simp at hexec
          | ok content =>
              simp only [hct, Bool.and_self, if_true, Prod.mk.injEq,
                Except.ok.injEq, Bool.and_true] at hexec
              obtain ⟨h1, h2, _⟩ := hexec
              rw [← h2, ← h1]
              exact cacheGet_cacheStore cache _ _ hlen

/-! Claims -/

/-- Claim C1: for a pair of executor calls with `useCache` enabled, the same
caller, the same cacheable tool and identical serialized arguments, where the
first call actually went to the remote (it was not itself a cache hit) and
succeeded, a second call within the cache TTL of the first is answered from
the stored entry: it returns the stored result text with an empty trace — no
transport session is opened, the remote is not invoked at all, and no retry
backoff is counted — and the cache is left unchanged.  The second call's
environment (`env2`) is arbitrary: its remote behaviour and even its
credential are never consulted. -/
theorem claim_C1_second_call_served_from_cache
    (toolName args userId : String) (retries1 retries2 : Nat)
    (env1 env2 : Env) (t1 t2 : Nat) (cache0 cache1 : SearchCache)
    (r : String) (tr1 : Trace)
    (hlen : cache0.length ≤ 100)
    (hct : isCacheableTool toolName = true)
    (hmiss1 : cachedResult true toolName args userId t1 cache0 = none)
    (h1 : executeGmailToolEnhanced toolName args userId true retries1 env1 t1
        cache0 = (.ok r, cache1, tr1))
    (_hmono : t1 ≤ t2) (httl : t2 - t1 < CACHE_TTL) :
    executeGmailToolEnhanced toolName args userId true retries2 env2 t2 cache1
      = (.ok r, cache1, Trace.none) := by
  have hstore := exec_stores toolName args userId retries1 env1 t1 cache0 r
    cache1 tr1 hlen hct hmiss1 h1
  have hhit : cachedResult true toolName args userId t2 cache1 = some r := by
    simp [cachedResult, hct, hstore, httl]
  simp [executeGmailToolEnhanced, hhit]

/-- Witness for C1: a concrete first call stores, and the second call is
served from the cache even under an environment with no configuration, no
credential and an always-failing remote. -/
theorem claim_C1_witness :
    executeGmailToolEnhanced "list_messages" "A" "u" true 2
        (Env.mk false none (fun _ => .connectFail "x")) 1
        [(cacheKey "u" "list_messages" "A", ⟨"R", 0⟩)]
      = (.ok "R", [(cacheKey "u" "list_messages" "A", ⟨"R", 0⟩)], Trace.none) :=
  claim_C1_second_call_served_from_cache "list_messages" "A" "u" 2 2
    (Env.mk true (some "tok") (fun _ => .success [.textItem "R"]))
    (Env.mk false none (fun _ => .connectFail "x")) 0 1 []
    [(cacheKey "u" "list_messages" "A", ⟨"R", 0⟩)] "R" ⟨1, 1, 1, []⟩
    (by decide) (by decide) (by decide) (by rfl) (by decide) (by decide)

/-- Claim C2: a mutating tool call (`send_message`, `create_draft`,
`create_label`) never stores into the cache (the final cache equals the
initial one) and is never served from the cache (its result and its trace do
not depend on the cache contents at all — in particular a second identical
call behaves as if the cache were empty), for any `useCache` setting. -/
theorem claim_C2_mutating_never_uses_cache
    (toolName args userId : String) (useCache : Bool) (retries : Nat)
    (env : Env) (now : Nat) (cache cache' : SearchCache)
    (hmut : isMutatingGmailTool toolName = true) :
    (executeGmailToolEnhanced toolName args userId useCache retries env now
        cache).2.1 = cache ∧
    (executeGmailToolEnhanced toolName args userId useCache retries env now
        cache).1
      = (executeGmailToolEnhanced toolName args userId useCache retries env now
        cache').1 ∧
    (executeGmailToolEnhanced toolName args userId useCache retries env now
        cache).2.2
      = (executeGmailToolEnhanced toolName args userId useCache retries env now
        cache').2.2 := by
  have hnc := mutating_not_cacheable toolName hmut
  have hm1 := cachedResult_not_cacheable useCache toolName args userId now cache hnc
  have hm2 := cachedResult_not_cacheable useCache toolName args userId now cache' hnc
  simp only [executeGmailToolEnhanced, hm1, hm2, hnc, Bool.and_false, if_false]
  cases hcfg : env.configOk
  · simp
  · simp only [Bool.true_eq_false, if_false]
    cases htok : env.token
    · simp
    · rcases hloop : attemptLoop env.remote 0 retries with ⟨res, tr⟩
      cases res <;> simp

/-- Witness for C2: a concrete `send_message` call with `useCache` enabled
leaves a pre-populated cache unchanged and behaves exactly as with an empty
cache. -/
theorem claim_C2_witness :
    (executeGmailToolEnhanced "send_message" "A" "u" true 2
        (Env.mk true (some "tok") (fun _ => .success [.textItem "sent"])) 1000
        [(cacheKey "u" "send_message" "A", ⟨"stale", 999⟩)]).2.1
      = [(cacheKey "u" "send_message" "A", ⟨"stale", 999⟩)] ∧
    (executeGmailToolEnhanced "send_message" "A" "u" true 2
        (Env.mk true (some "tok") (fun _ => .success [.textItem "sent"])) 1000
        [(cacheKey "u" "send_message" "A", ⟨"stale", 999⟩)]).1
      = (executeGmailToolEnhanced "send_message" "A" "u" true 2
        (Env.mk true (some "tok") (fun _ => .success [.textItem "sent"])) 1000
        []).1 ∧
    (executeGmailToolEnhanced "send_message" "A" "u" true 2
        (Env.mk true (some "tok") (fun _ => .success [.textItem "sent"])) 1000
        [(cacheKey "u" "send_message" "A", ⟨"stale", 999⟩)]).2.2
      = (executeGmailToolEnhanced "send_message" "A" "u" true 2
        (Env.mk true (some "tok") (fun _ => .success [.textItem "sent"])) 1000
        []).2.2 :=
  claim_C2_mutating_never_uses_cache "send_message" "A" "u" true 2
    (Env.mk true (some "tok") (fun _ => .success [.textItem "sent"])) 1000
    [(cacheKey "u" "send_message" "A", ⟨"stale", 999⟩)] [] (by decide)

/-- Claim C3: with `retries = 2` and the first two attempts failing, (a) if
the third attempt also fails the executor performs exactly 3 attempts
(3 sessions opened, 3 closed), fails carrying the last recorded error, and
has slept exactly twice with strictly doubling delays 1000 ms then 2000 ms;
(b) if the third attempt succeeds the executor returns the successful result
text after the same 3 attempts and the same two strictly increasing sleeps. -/
theorem claim_C3_retry_exhaustion_and_backoff
    (toolName args userId : String) (useCache : Bool) (env : Env) (now : Nat)
    (cache : SearchCache) (tok m0 m1 : String)
    (hmiss : cachedResult useCache toolName args userId now cache = none)
    (hcfg : env.configOk = true) (htok : env.token = some tok)
    (h0 : (env.remote 0).errMsg = some m0)
    (h1 : (env.remote 1).errMsg = some m1) :
    (∀ m2, (env.remote 2).errMsg = some m2 →
      (executeGmailToolEnhanced toolName args userId useCache 2 env now cache).1
        = .error (.remoteFailed m2) ∧
      (executeGmailToolEnhanced toolName args userId useCache 2 env now
        cache).2.1 = cache ∧
      (executeGmailToolEnhanced toolName args userId useCache 2 env now
        cache).2.2.opens = 3 ∧
      (executeGmailToolEnhanced toolName args userId useCache 2 env now
        cache).2.2.closes = 3 ∧
      (executeGmailToolEnhanced toolName args userId useCache 2 env now
        cache).2.2.sleeps = [1000, 2000]) ∧
    (∀ content, env.remote 2 = .success content →
      (executeGmailToolEnhanced toolName args userId useCache 2 env now cache).1
        = .ok (extractText content) ∧
      (executeGmailToolEnhanced toolName args userId useCache 2 env now
        cache).2.2.opens = 3 ∧
      (executeGmailToolEnhanced toolName args userId useCache 2 env now
        cache).2.2.closes = 3 ∧
      (executeGmailToolEnhanced toolName args userId useCache 2 env now
        cache).2.2.sleeps = [1000, 2000]) := by
  have hclose := attemptLoop_closes_eq_opens env.remote 2 0
  constructor
  · intro m2 h2
    have hm : ∀ i, i ≤ 2 → (env.remote (0 + i)).errMsg
        = some ((fun j => if j = 0 then m0 else if j = 1 then m1 else m2)
            (0 + i)) := by
      intro i hi
      interval_cases i <;> simpa using ‹_›
    obtain ⟨ha, hb, hc⟩ := attemptLoop_allFail env.remote
      (fun j => if j = 0 then m0 else if j = 1 then m1 else m2) 2 0 hm
    rcases hloop : attemptLoop env.remote 0 2 with ⟨res, tr⟩
    rw [hloop] at ha hb hc hclose
    dsimp only at ha hb hc hclose
    norm_num at ha
    subst ha
    simp only [executeGmailToolEnhanced, hmiss, hcfg, htok, Bool.true_eq_false,
      if_false, hloop]
    refine ⟨trivial, trivial, hb, by rw [hclose, hb], ?_⟩
    rw [hc]; rfl
  · intro content h2
    have hm : ∀ i, i < 2 → ((env.remote (0 + i)).errMsg).isSome = true := by
      intro i hi
      interval_cases i <;> simp_all
    have hs : env.remote (0 + 2) = .success content := by simpa using h2
    obtain ⟨ha, hb, hc⟩ :=
      attemptLoop_success_at env.remote content 2 2 0 (Nat.le_refl 2) hm hs
    rcases hloop : attemptLoop env.remote 0 2 with ⟨res, tr⟩
    rw [hloop] at ha hb hc hclose
    dsimp only at ha hb hc hclose
    subst ha
    simp only [executeGmailToolEnhanced, hmiss, hcfg, htok, Bool.true_eq_false,
      if_false, hloop]
    refine ⟨trivial, hb, by rw [hclose, hb], ?_⟩
    rw [hc]; rfl

/-- Witness for C3: a remote failing with `e0`, `e1`, `e2` on the three
attempts exhausts the budget with the stated trace, and a remote failing
twice then succeeding yields the success with the same two sleeps. -/
theorem claim_C3_witness :
    ((executeGmailToolEnhanced "list_messages" "A" "u" true 2
        (Env.mk true (some "tok")
          (fun i => .callFail ("e" ++ toString i))) 0 []).1
      = .error (.remoteFailed "e2") ∧
     (executeGmailToolEnhanced "list_messages" "A" "u" true 2
        (Env.mk true (some "tok")
          (fun i => .callFail ("e" ++ toString i))) 0 []).2.1 = [] ∧
     (executeGmailToolEnhanced "list_messages" "A" "u" true 2
        (Env.mk true (some "tok")
          (fun i => .callFail ("e" ++ toString i))) 0 []).2.2.opens = 3 ∧
     (executeGmailToolEnhanced "list_messages" "A" "u" true 2
        (Env.mk true (some "tok")
          (fun i => .callFail ("e" ++ toString i))) 0 []).2.2.closes = 3 ∧
     (executeGmailToolEnhanced "list_messages" "A" "u" true 2
        (Env.mk true (some "tok")
          (fun i => .callFail ("e" ++ toString i))) 0 []).2.2.sleeps
       = [1000, 2000]) ∧
    ((executeGmailToolEnhanced "list_messages" "A" "u" true 2
        (Env.mk true (some "tok")
          (fun i => if i < 2 then .callFail ("e" ++ toString i)
                    else .success [.textItem "OK3"])) 0 []).1
      = .ok (extractText [.textItem "OK3"]) ∧
     (executeGmailToolEnhanced "list_messages" "A" "u" true 2
        (Env.mk true (some "tok")
          (fun i => if i < 2 then .callFail ("e" ++ toString i)
                    else .success [.textItem "OK3"])) 0 []).2.2.opens = 3 ∧
     (executeGmailToolEnhanced "list_messages" "A" "u" true 2
        (Env.mk true (some "tok")
          (fun i => if i < 2 then .callFail ("e" ++ toString i)
                    else .success [.textItem "OK3"])) 0 []).2.2.closes = 3 ∧
     (executeGmailToolEnhanced "list_messages" "A" "u" true 2
        (Env.mk true (some "tok")
          (fun i => if i < 2 then .callFail ("e" ++ toString i)
                    else .success [.textItem "OK3"])) 0 []).2.2.sleeps
       = [1000, 2000]) :=
  ⟨(claim_C3_retry_exhaustion_and_backoff "list_messages" "A" "u" true
      (Env.mk true (some "tok") (fun i => .callFail ("e" ++ toString i))) 0 []
      "tok" "e0" "e1" (by decide) (by decide) (by decide) (by decide)
      (by decide)).1 "e2" (by decide),
   (claim_C3_retry_exhaustion_and_backoff "list_messages" "A" "u" true
      (Env.mk true (some "tok")
        (fun i => if i < 2 then .callFail ("e" ++ toString i)
                  else .success [.textItem "OK3"])) 0 []
      "tok" "e0" "e1" (by decide) (by decide) (by decide) (by decide)
      (by decide)).2 [.textItem "OK3"] (by decide)⟩

/-- Counterexample to claim C4 as stated: an executor call by a caller with
NO stored credential (`token = none`) does not always fail — when a live
cache entry exists for the key, the cached result is returned before the
credential is ever consulted, so the call succeeds instead of failing with
the 'not connected' condition. -/
theorem claim_C4_counterexample :
    (Env.mk true none (fun _ => .connectFail "unreachable")).token = none ∧
    executeGmailToolEnhanced "list_messages" "A" "u" true 2
        (Env.mk true none (fun _ => .connectFail "unreachable")) 1000
        [(cacheKey "u" "list_messages" "A", ⟨"CACHED", 900⟩)]
      = (.ok "CACHED",
         [(cacheKey "u" "list_messages" "A", ⟨"CACHED", 900⟩)], Trace.none) ∧
    (Except.ok "CACHED" : Except ExecError String) ≠ .error .notConnected :=
  ⟨rfl, rfl, fun h => Except.noConfusion h⟩

/-- Claim C4 (amended: restricted to calls not served from the cache, with
process configuration present): an executor call by a caller with no stored
credential fails with the distinct 'not connected' condition, opens no
transport session, performs no remote call and never enters the retry loop
(no sleeps), leaving the cache unchanged. -/
theorem claim_C4_not_connected
    (toolName args userId : String) (useCache : Bool) (retries : Nat)
    (env : Env) (now : Nat) (cache : SearchCache)
    (hmiss : cachedResult useCache toolName args userId now cache = none)
    (hcfg : env.configOk = true) (htok : env.token = none) :
    executeGmailToolEnhanced toolName args userId useCache retries env now cache
      = (.error .notConnected, cache, Trace.none) :=
  exec_notConnected toolName args userId useCache retries env now cache hmiss
    hcfg htok

/-- Witness for the amended C4: a concrete disconnected caller fails
`notConnected` with the empty trace. -/
theorem claim_C4_witness :
    executeGmailToolEnhanced "list_messages" "A" "u" true 2
        (Env.mk true none (fun _ => .connectFail "unreachable")) 1000 []
      = (.error .notConnected, [], Trace.none) :=
  claim_C4_not_connected "list_messages" "A" "u" true 2
    (Env.mk true none (fun _ => .connectFail "unreachable")) 1000 []
    (by decide) (by decide) (by decide)

/-- Claim C5: for every executor call — whatever the cache state, the
configuration, the credential, the retry budget and the per-attempt remote
behaviour (success, connect failure, or call failure/timeout on any mix of
attempts) — the number of `close` calls recorded equals the number of
sessions opened: every attempt that opened a session closed it exactly
once. -/
theorem claim_C5_session_close_balance
    (toolName args userId : String) (useCache : Bool) (retries : Nat)
    (env : Env) (now : Nat) (cache : SearchCache) :
    (executeGmailToolEnhanced toolName args userId useCache retries env now
        cache).2.2.closes
      = (executeGmailToolEnhanced toolName args userId useCache retries env now
        cache).2.2.opens := by
  have hclose := attemptLoop_closes_eq_opens env.remote retries 0
  unfold executeGmailToolEnhanced
  cases hc : cachedResult useCache toolName args userId now cache
  · cases hcfg : env.configOk
    · rfl
    · simp only [Bool.true_eq_false, if_false]
      cases htok : env.token
      · rfl
      · rcases hloop : attemptLoop env.remote 0 retries with ⟨res, tr⟩
        rw [hloop] at hclose
        cases res <;> simpa using hclose
  · rfl

/-- Counterexample to claim C6 as stated: the source inspects only the FIRST
content item's type.  For a reply whose first item is not text-typed but
whose second is (payload `"hi"`), the executor returns the JSON
stringification of the whole content, not the first text-typed item's
payload. -/
theorem claim_C6_counterexample :
    (executeGmailToolEnhanced "list_messages" "A" "u" true 2
        (Env.mk true (some "tok")
          (fun _ => .success [.otherItem "image" "x", .textItem "hi"])) 0 []).1
      = .ok (stringifyContent [.otherItem "image" "x", .textItem "hi"]) ∧
    firstTextItemPayload? [.otherItem "image" "x", .textItem "hi"]
      = some "hi" ∧
    stringifyContent [.otherItem "image" "x", .textItem "hi"] ≠ "hi" :=
  ⟨rfl, rfl, by decide⟩

/-- Claim C6 (amended: "first text-typed item" corrected to "first item,
when text-typed"): for every successful remote reply — reached at any
attempt `k` within the budget after `k` failures — the executor's returned
result text equals the text payload of the FIRST item of the reply's content
list when that item is text-typed, and otherwise (first item non-text, or
empty content list) the JSON stringification of the whole content. -/
theorem claim_C6_result_text_extraction
    (toolName args userId : String) (useCache : Bool) (retries k : Nat)
    (env : Env) (now : Nat) (cache : SearchCache) (tok : String)
    (content : List ContentItem)
    (hmiss : cachedResult useCache toolName args userId now cache = none)
    (hcfg : env.configOk = true) (htok : env.token = some tok)
    (hk : k ≤ retries)
    (hfail : ∀ i, i < k → ((env.remote i).errMsg).isSome = true)
    (hsucc : env.remote k = .success content) :
    (∀ s, content.head? = some (.textItem s) →
      (executeGmailToolEnhanced toolName args userId useCache retries env now
        cache).1 = .ok s) ∧
    ((∀ s, content.head? ≠ some (.textItem s)) →
      (executeGmailToolEnhanced toolName args userId useCache retries env now
        cache).1 = .ok (stringifyContent content)) := by
  have hfail' : ∀ i, i < k → ((env.remote (0 + i)).errMsg).isSome = true := by
    intro i hi
    rw [Nat.zero_add]
    exact hfail i hi
  have hsucc' : env.remote (0 + k) = .success content := by
    rw [Nat.zero_add]; exact hsucc
  obtain ⟨ha, -, -⟩ :=
    attemptLoop_success_at env.remote content k retries 0 hk hfail' hsucc'
  rcases hloop : attemptLoop env.remote 0 retries with ⟨res, tr⟩
  rw [hloop] at ha
  dsimp only at ha
  subst ha
  have hres : (executeGmailToolEnhanced toolName args userId useCache retries
      env now cache).1 = .ok (extractText content) := by
    simp only [executeGmailToolEnhanced, hmiss, hcfg, htok, Bool.true_eq_false,
      if_false, hloop]
  constructor
  · intro s hs
    rw [hres]
    cases content with
    | nil => simp at hs
    | cons c rest =>
        cases c with
        | textItem t => simp at hs; rw [extractText, hs]
        | otherItem ty data => simp at hs
  · intro hnone
    rw [hres]
    cases content with
    | nil => rfl
    | cons c rest =>
        cases c with
        | textItem t => exact absurd rfl (hnone t)
        | otherItem ty data => rfl

/-- Witness for the amended C6: a first-attempt success with a text-typed
first item returns its payload, and one with a non-text first item returns
the stringified content. -/
theorem claim_C6_witness :
    (executeGmailToolEnhanced "list_messages" "A" "u" true 2
        (Env.mk true (some "tok") (fun _ => .success [.textItem "hi"])) 0
        []).1 = .ok "hi" ∧
    (executeGmailToolEnhanced "list_messages" "A" "u" true 2
        (Env.mk true (some "tok")
          (fun _ => .success [.otherItem "image" "x", .textItem "hi"])) 0
        []).1
      = .ok (stringifyContent [.otherItem "image" "x", .textItem "hi"]) :=
  ⟨(claim_C6_result_text_extraction "list_messages" "A" "u" true 2 0
      (Env.mk true (some "tok") (fun _ => .success [.textItem "hi"])) 0 []
      "tok" [.textItem "hi"] (by decide) (by decide) (by decide)
      (by decide) (by intro i hi; omega) (by decide)).1 "hi" (by decide),
   (claim_C6_result_text_extraction "list_messages" "A" "u" true 2 0
      (Env.mk true (some "tok")
        (fun _ => .success [.otherItem "image" "x", .textItem "hi"])) 0 []
      "tok" [.otherItem "image" "x", .textItem "hi"] (by decide) (by decide)
      (by decide) (by decide) (by intro i hi; omega) (by decide)).2
     (fun s h => by injection h with h2; exact ContentItem.noConfusion h2)⟩

/-- Claim C7: the credential is re-fetched from the store on every
invocation that needs the integration (the model consults only the store's
value at call time, `env2.token`).  In the two-call scenario — an arbitrary
first call (which may have fetched and used a credential), the credential
deleted afterwards, then a second call by the same caller that is not served
from the cache — the second call never uses the previously fetched
credential: it fails `notConnected` with no session, no remote call and no
sleep. -/
theorem claim_C7_credential_refetched_per_call
    (toolName1 args1 toolName2 args2 userId : String)
    (useCache1 useCache2 : Bool) (retries1 retries2 : Nat)
    (env1 env2 : Env) (t1 t2 : Nat) (cache0 : SearchCache)
    (hcfg2 : env2.configOk = true)
    (hdeleted : env2.token = none)
    (hmiss2 : cachedResult useCache2 toolName2 args2 userId t2
        (executeGmailToolEnhanced toolName1 args1 userId useCache1 retries1
          env1 t1 cache0).2.1 = none) :
    executeGmailToolEnhanced toolName2 args2 userId useCache2 retries2 env2 t2
        (executeGmailToolEnhanced toolName1 args1 userId useCache1 retries1
          env1 t1 cache0).2.1
      = (.error .notConnected,
         (executeGmailToolEnhanced toolName1 args1 userId useCache1 retries1
           env1 t1 cache0).2.1,
         Trace.none) :=
  exec_notConnected toolName2 args2 userId useCache2 retries2 env2 t2 _ hmiss2
    hcfg2 hdeleted

/-- Witness for C7: a successful `get_message` call with a credential,
followed — after the credential is deleted — by a `send_message` call by the
same caller, which fails `notConnected` without any session. -/
theorem claim_C7_witness :
    executeGmailToolEnhanced "send_message" "B" "u" false 1
        (Env.mk true none (fun _ => .success [.textItem "never"])) 5
        (executeGmailToolEnhanced "get_message" "A" "u" false 1
          (Env.mk true (some "tok") (fun _ => .success [.textItem "msg"])) 1
          []).2.1
      = (.error .notConnected,
         (executeGmailToolEnhanced "get_message" "A" "u" false 1
           (Env.mk true (some "tok") (fun _ => .success [.textItem "msg"])) 1
           []).2.1,
         Trace.none) :=
  claim_C7_credential_refetched_per_call "get_message" "A" "send_message" "B"
    "u" false false 1 1
    (Env.mk true (some "tok") (fun _ => .success [.textItem "msg"]))
    (Env.mk true none (fun _ => .success [.textItem "never"])) 1 5 []
    (by decide) (by decide) (by decide)

/-- Claim C8: the list-result normalizer is total (it is a Lean function, so
it never throws) and fail-open: when the payload is not parseable
(`parsed = none`) or its parse lacks the canonical `messages` array, the raw
input is returned unchanged (round-trip identity); when the array is present
but empty, the fixed no-results sentence is returned.  This holds for every
host date formatter `fmtDate`. -/
theorem claim_C8_normalizer_fail_open
    (emailData : String) (parsed : Option Json) (fmtDate : String → String) :
    (parsed = none → formatEmailResults emailData parsed fmtDate = emailData) ∧
    (∀ js, parsed = some js → messagesArray? js = none →
      formatEmailResults emailData parsed fmtDate = emailData) ∧
    (∀ js, parsed = some js → messagesArray? js = some [] →
      formatEmailResults emailData parsed fmtDate
        = "No emails found matching your search criteria.") := by
  refine ⟨?_, ?_, ?_⟩
  · rintro rfl; rfl
  · rintro js rfl hm
    unfold messagesArray? at hm
    unfold formatEmailResults
    dsimp only
    by_cases ht : jsTruthy js = false
    · rw [if_pos ht]
    · rw [if_neg ht]
      rw [if_neg ht] at hm
      cases hf : objField? js "messages" with
      | none => rfl
      | some v =>
          cases v with
          | arr xs =>
              rw [hf] at hm
              exact absurd hm (by simp)
          | null => rfl
          | bool b => rfl
          | num n => rfl
          | str t => rfl
          | obj fs => rfl
  · rintro js rfl hm
    unfold messagesArray? at hm
    unfold formatEmailResults
    dsimp only
    by_cases ht : jsTruthy js = false
    · rw [if_pos ht] at hm; exact absurd hm (by simp)
    · rw [if_neg ht]
      rw [if_neg ht] at hm
      cases hf : objField? js "messages" with
      | none => rw [hf] at hm; exact absurd hm (by simp)
      | some v =>
          rw [hf] at hm
          cases v with
          | arr xs =>
              cases xs with
              | nil => rfl
              | cons y ys => exact absurd hm (by simp)
          | null => exact absurd hm (by simp)
          | bool b => exact absurd hm (by simp)
          | num n => exact absurd hm (by simp)
          | str t => exact absurd hm (by simp)
          | obj fs => exact absurd hm (by simp)

/-- Witness for C8: an unparseable payload round-trips, a parse without a
`messages` array round-trips, and an empty `messages` array yields the fixed
sentence. -/
theorem claim_C8_witness :
    formatEmailResults "raw ]" none (fun s => s) = "raw ]" ∧
    formatEmailResults "5" (some (.num 5)) (fun s => s) = "5" ∧
    formatEmailResults "x" (some (.obj [("messages", .arr [])]))
        (fun s => s)
      = "No emails found matching your search criteria." :=
  ⟨(claim_C8_normalizer_fail_open "raw ]" none (fun s => s)).1 rfl,
   (claim_C8_normalizer_fail_open "5" (some (.num 5)) (fun s => s)).2.1
     (.num 5) rfl rfl,
   (claim_C8_normalizer_fail_open "x" (some (.obj [("messages", .arr [])]))
     (fun s => s)).2.2 (.obj [("messages", .arr [])]) rfl rfl⟩

/-- Claim C9: the query builder, on the specified input, returns exactly the
specified string, with the fields in the fixed order free text, date-after,
date-before, sender, attachment, unread (absent fields — here `dateRange.end`
— omitted). -/
theorem claim_C9_query_builder_exact_string :
    buildGmailQuery
        ⟨some "invoice", some ⟨some "2024-01-01", none⟩, some "a@b.com",
         some true, some true⟩
      = "invoice after:2024-01-01 from:a@b.com has:attachment is:unread" :=
  rfl

/-- Claim C10: the mutating tools run through the legacy wrapper, which is
the enhanced executor with `useCache = false` and `retries = 1` (second
conjunct, definitional); hence for a remote whose first `send_message`
attempt times out after the remote accepted the request and whose second
attempt succeeds, a single user-level `sendMessage` call invokes the remote
`send_message` procedure exactly twice (trace: 2 sessions, 2 remote calls,
one backoff sleep) and returns the success. -/
theorem claim_C10_mutating_send_invoked_twice :
    sendMessageExecute "A" "u" retryOnceEnv 0 []
      = (.ok "Message sent", [], ⟨2, 2, 2, [1000]⟩) ∧
    sendMessageExecute "A" "u" retryOnceEnv 0 []
      = executeGmailToolEnhanced "send_message" "A" "u" false 1 retryOnceEnv
          0 [] :=
  ⟨rfl, rfl⟩
